/-
Verification of the go-errors/errors library (stack-trace-carrying error
wrappers) against its specification.

The repository ships two variants of the library in its sources:
  * V1 — the `wrappedError` implementation of the `Error` interface
    (src/unnamed/part_000 lines 46-230), whose introspection methods use
    value receivers;
  * V2 — the exported `Error` struct implementation
    (src/unnamed/part_000 lines 231-469), whose methods use pointer
    receivers.
The chain-aware equality `Is` appears textually identically in the V2 file
(lines 380-395) and in error_backward.go (the pre-go1.13 build); it is
embedded once, at top level.

Host-environment primitives (out of scope per the spec, consumed at their
interface) are passed as explicit parameters:
  * `CallEnv`  — runtime.Callers: a skip count yields the ordered raw
    address sequence of the current call chain (truncation to the buffer
    size `MaxStackDepth` is modelled by `List.take`);
  * `Resolver` — NewStackFrame: one raw address yields one resolved frame;
  * fresh allocation: constructors that synthesize a cause or allocate a
    wrapper receive the fresh identity (`freshId`, `ref`) as a parameter.

Go interface values are modelled by the inductive `ErrV`; pointer identity
of a wrapper is modelled by its `ref` field, and Go's `==` on interface
values by structural equality of `ErrV` (sound here because a well-formed
heap gives distinct wrappers distinct refs).
-/
import Mathlib

set_option linter.unusedVariables false
set_option linter.unreachableTactic false
set_option linter.unusedTactic false
set_option linter.unnecessarySeqFocus false

/-- A resolved call-site record (type `StackFrame`; its defining source file
is not part of src/, only its use sites are, so the fields follow the
spec's data model §3: file path, line number, function name,
package/namespace name, raw program-counter address). -/
structure StackFrame where
  file : String
  lineNumber : Nat
  name : String
  pack : String
  programCounter : Nat
deriving DecidableEq, Repr

/-- A Go `error` interface value, as the dynamic types that occur in this
repository: the nil interface, a synthesized `*errors.errorString`
(errors.New / fmt.Errorf), the runtime-fault carrier `errors.uncaughtPanic`,
the test type `errors.errorWithCustomIs` (src/unnamed/part_000 lines
525-537, a struct with a Key and a nested error), a foreign error of some
other dynamic type, and the library's own wrapper `*errors.Error` /
`*errors.wrappedError` (pointer identity `ref`; the `prefixStr` field exists
only on the V1 wrappedError struct and is `""` for V2 wrappers). -/
inductive ErrV : Type
  | nil : ErrV
  | errorString (id : Nat) (msg : String) : ErrV
  | uncaughtPanic (msg : String) : ErrV
  | customIs (key : String) (innerErr : ErrV) : ErrV
  | foreign (tyName : String) (id : Nat) (msg : String) : ErrV
  | wrapper (ref : Nat) (prefixStr : String) (err : ErrV) : ErrV
deriving DecidableEq, Repr

/-- The `.Error()` message of a value, by dynamic dispatch on its type.
`errorWithCustomIs.Error` is src lines 530-532; the wrapper case is
`wrappedError.Error` (src lines 176-184; for V2 wrappers `prefixStr = ""`
and the case degenerates to `(*Error).Error`, src lines 405-407).
A nil interface has no method; Go would fault, the model returns "". -/
def errMsg : ErrV → String
  | .nil => ""
  | .errorString _ m => m
  | .uncaughtPanic m => m
  | .customIs k inner => "[" ++ k ++ "]: " ++ errMsg inner
  | .foreign _ _ m => m
  | .wrapper _ p e => if p ≠ "" then p ++ ": " ++ errMsg e else errMsg e

/-- Whether a value is one of the library's wrappers. -/
def ErrV.isWrapper : ErrV → Bool
  | .wrapper _ _ _ => true
  | _ => false

/-- Remove every wrapper layer, exposing the final non-wrapper cause. -/
def strip : ErrV → ErrV
  | .wrapper _ _ e => strip e
  | e => e

/-- Chain-aware equality (src/unnamed/part_000 lines 380-395, and
identically src/error_backward.go lines 8-22): identity first, then strip
`e`'s wrapper layers, then strip `original`'s, else false. -/
def Is (e original : ErrV) : Bool :=
  if e = original then
    true
  else
    match e, original with
    | .wrapper _ _ inner, _ => Is inner original
    | e, .wrapper _ _ inner => Is e inner
    | _, _ => false
termination_by (sizeOf e, sizeOf original)

theorem strip_not_isWrapper (e : ErrV) : (strip e).isWrapper = false := by
  induction e with
  | wrapper r p inner ih => simpa [strip] using ih
  | nil => rfl
  | errorString i m => rfl
  | uncaughtPanic m => rfl
  | customIs k inner ih => rfl
  | foreign t i m => rfl

theorem strip_eq_self_of_not_wrapper (e : ErrV) (h : e.isWrapper = false) :
    strip e = e := by
  cases e <;> simp_all [ErrV.isWrapper, strip]

theorem strip_eq_self_of_no_wrapper (e : ErrV)
    (h : ∀ (r : Nat) (p : String) (i : ErrV), e = ErrV.wrapper r p i → False) :
    strip e = e := by
  cases e <;> first | rfl | exact absurd rfl (h _ _ _)

theorem strip_wrapper (r : Nat) (p : String) (e : ErrV) :
    strip (.wrapper r p e) = strip e := rfl

/-- The observable content of `Is`: two values are `Is`-equal exactly when
their fully stripped causes are equal. -/
theorem Is_eq_strip (e original : ErrV) :
    Is e original = decide (strip e = strip original) := by
  have key : ∀ (n : Nat) (e original : ErrV), sizeOf e + sizeOf original ≤ n →
      Is e original = decide (strip e = strip original) := by
    intro n
    induction n with
    | zero => intro e orig h; cases e <;> simp_all
    | succ n ih =>
      intro e orig h
      rw [Is.eq_def]
      split
      · next heq => subst heq; simp
      · next hne =>
        split
        · next r p inner =>
          rw [ih inner orig (by simp_all; omega)]
          simp [strip]
        · next a b r p i hnw =>
          rw [ih e i (by simp_all; omega)]
          simp [strip]
        · next a b hA hB =>
          rw [strip_eq_self_of_no_wrapper e hA, strip_eq_self_of_no_wrapper orig hB]
          exact (decide_eq_false hne).symm
  exact key (sizeOf e + sizeOf original) e original le_rfl

/-- The maximum number of stackframes on any error (src/unnamed/part_000
line 56 and line 287, a package-level variable; constructors read the value
in effect at capture time, modelled by their `md` parameter, and this
definition is its default). -/
def MaxStackDepth : Nat := 50

/-- Model of runtime.Callers at its interface (out-of-scope collaborator,
spec §1): a skip count yields the full ordered raw-address sequence of the
current call chain; writing into a buffer of size `md` is `List.take md`. -/
abbrev CallEnv := Nat → List Nat

/-- Model of NewStackFrame at its interface (the Frame Resolver, spec §2):
one raw address yields one resolved frame. Its defining source file is not
part of src/. -/
abbrev Resolver := Nat → StackFrame

/-- Hexadecimal rendering of a raw address. -/
def hexStr (n : Nat) : String := String.mk (Nat.toDigits 16 n)

/-- Modelled from the spec: the Trace Formatter's per-frame rendering
(`StackFrame.String`, whose defining source file is not part of src/).
Spec §4.3: line 1 is the function name qualified by its package, or the
literal "unknown" if unresolved; line 2 is a tab-indented
"<file>:<line> (+0x<address in hex>)". Each frame block carries its own
trailing newline. -/
def StackFrame.render (f : StackFrame) : String :=
  (if f.name = "" then "unknown" else f.pack ++ "." ++ f.name) ++ "\n"
    ++ "\t" ++ f.file ++ ":" ++ toString f.lineNumber
    ++ " (+0x" ++ hexStr f.programCounter ++ ")" ++ "\n"

/-- Every rendered frame block is non-empty (it ends in a newline). -/
theorem StackFrame.render_ne_empty (f : StackFrame) : f.render ≠ "" := by
  have h1 : (0 : Nat) < ("\n" : String).length := by decide
  have h : 0 < f.render.length := by
    simp only [StackFrame.render, String.length_append]
    omega
  intro he
  rw [he] at h
  simp at h

/-- reflect.TypeOf(err).String() at its interface: the fully qualified
dynamic type name of each modelled error value. A nil interface never
reaches it on the library's own paths. -/
def reflectTypeString : ErrV → String
  | .nil => "<nil>"
  | .errorString _ _ => "*errors.errorString"
  | .uncaughtPanic _ => "errors.uncaughtPanic"
  | .customIs _ _ => "errors.errorWithCustomIs"
  | .foreign t _ _ => t
  | .wrapper _ _ _ => "*errors.Error"

/-- typeName (src/unnamed/part_000 lines 464-469): "panic" when the cause
is the captured runtime-fault carrier `uncaughtPanic` (whose type
declaration lives in a source file not under src/; only the type assertion
`err.(uncaughtPanic)` appears here, modelled by the constructor match),
otherwise the reflected concrete type name. -/
def typeName (err : ErrV) : String :=
  match err with
  | .uncaughtPanic _ => "panic"
  | e => reflectTypeString e

/-- Whether a value is the captured runtime-fault carrier. -/
def ErrV.isPanic : ErrV → Bool
  | .uncaughtPanic _ => true
  | _ => false

/-- The custom equality hook of `errorWithCustomIs` (src/unnamed/part_000
lines 534-537): the receiver `e` declares itself equal to `target` when
`target` is also an `errorWithCustomIs` and the keys coincide. Values of
any other type implement no hook, which the dispatcher reads as a false
verdict ("failing outright"). -/
def callIsHook (e target : ErrV) : Bool :=
  match e with
  | .customIs key _ =>
    match target with
    | .customIs key2 _ => decide (key2 = key)
    | _ => false
  | _ => false

/-- Whether a value implements the custom equality hook. -/
def ErrV.hasIsHook : ErrV → Bool
  | .customIs _ _ => true
  | _ => false

/-- Modelled from the spec: the go1.13 build of `Is`, whose source file is
not under src/ (only its test, TestIs113 at src/unnamed/part_000 lines
480-523, and the pre-1.13 build in error_backward.go are present).
Spec §4.4: identity first; then strip `e`'s wrapper layers, then
`original`'s; the final non-wrapper, non-identical comparison delegates to
the host's custom equality hook when the value implements one, instead of
failing outright. -/
def Is113 (e original : ErrV) : Bool :=
  if e = original then
    true
  else
    match e, original with
    | .wrapper _ _ inner, _ => Is113 inner original
    | e, .wrapper _ _ inner => Is113 e inner
    | e, original => callIsHook e original
termination_by (sizeOf e, sizeOf original)

/-! ## V1 — the `wrappedError` implementation (src/unnamed/part_000 lines 46-230) -/

namespace V1

/-- wrappedError (src lines 70-75). `ref` is not a Go field: it models the
pointer identity of the allocation. The Go field `prefix` is spelled
`prefixStr` (a Lean keyword). `frames = none` models the nil slice. -/
structure wrappedError where
  ref : Nat
  err : ErrV
  stack : List Nat
  frames : Option (List StackFrame)
  prefixStr : String
deriving DecidableEq, Repr

/-- The interface value a `*wrappedError` presents to the rest of the
program. -/
def wrappedError.toErrV (w : wrappedError) : ErrV :=
  .wrapper w.ref w.prefixStr w.err

/-- An `interface{}` argument to a V1 constructor: an existing
`*wrappedError`, some other non-nil error value, the nil interface, or a
non-error value carrying its `fmt "%v"` text. -/
inductive GoValue : Type
  | wrapperArg (w : wrappedError) : GoValue
  | errArg (e : ErrV) : GoValue
  | nilArg : GoValue
  | otherArg (text : String) : GoValue
deriving DecidableEq, Repr

/-- Well-formedness of an argument as a Go interface value: a wrapper
travels as `wrapperArg`, the nil interface as `nilArg`, so `errArg` carries
a non-nil non-wrapper dynamic error. -/
def GoValue.WF : GoValue → Prop
  | .errArg e => e ≠ ErrV.nil ∧ e.isWrapper = false
  | _ => True

/-- New (src lines 81-97): normalize the argument to an error cause (the
type switch has no `*wrappedError` shortcut: a wrapper is just an error
here), capture the stack into a MaxStackDepth-sized buffer, wrap.
`freshId` is the identity of a synthesized `fmt.Errorf` cause, `ref` the
identity of the new allocation; the omitted `frames` and `prefix` fields
are their Go zero values. -/
def New (md : Nat) (env : CallEnv) (e : GoValue) (freshId ref : Nat) :
    wrappedError :=
  let err : ErrV :=
    match e with
    | .wrapperArg w => w.toErrV
    | .errArg er => er
    | .nilArg => .errorString freshId "<nil>"
    | .otherArg t => .errorString freshId t
  { ref := ref, err := err, stack := (env 2).take md, frames := none,
    prefixStr := "" }

/-- Wrap (src lines 103-121): an existing `*wrappedError` is returned as
is; otherwise normalize and capture starting `2 + skip` frames up. -/
def Wrap (md : Nat) (env : CallEnv) (e : GoValue) (skip : Nat)
    (freshId ref : Nat) : wrappedError :=
  match e with
  | .wrapperArg w => w
  | .errArg er =>
    { ref := ref, err := er, stack := (env (2 + skip)).take md,
      frames := none, prefixStr := "" }
  | .nilArg =>
    { ref := ref, err := .errorString freshId "<nil>",
      stack := (env (2 + skip)).take md, frames := none, prefixStr := "" }
  | .otherArg t =>
    { ref := ref, err := .errorString freshId t,
      stack := (env (2 + skip)).take md, frames := none, prefixStr := "" }

/-- WrapPrefix (src lines 129-141): delegate to Wrap, then prepend the
prefix to the existing one (joined with ": ") or set it. The update goes
through the returned pointer, so the record keeps its `ref`. -/
def WrapPrefix (md : Nat) (env : CallEnv) (e : GoValue) (p : String)
    (skip : Nat) (freshId ref : Nat) : wrappedError :=
  let err := Wrap md env e skip freshId ref
  if err.prefixStr ≠ "" then
    { err with prefixStr := p ++ ": " ++ err.prefixStr }
  else
    { err with prefixStr := p }

/-- wrappedError.Error (src lines 176-184): the cause's message, prefixed
when a prefix is set. -/
def wrappedError.Error (err : wrappedError) : String :=
  let msg := errMsg err.err
  if err.prefixStr ≠ "" then err.prefixStr ++ ": " ++ msg else msg

/-- The body of wrappedError.StackFrames (src lines 212-222): resolve every
raw address when the cache field is nil, else return the cache. The second
component is the receiver as the method body leaves it — but the method is
declared on a VALUE receiver `(err wrappedError)`, so this updated copy is
discarded at every call site. -/
def wrappedError.StackFramesBody (res : Resolver) (err : wrappedError) :
    List StackFrame × wrappedError :=
  match err.frames with
  | none =>
    let f := err.stack.map res
    (f, { err with frames := some f })
  | some f => (f, err)

/-- A call `err.StackFrames()`: Go passes the value receiver by copy, so
the caller observes the result list while its own instance is unchanged. -/
def wrappedError.StackFrames (res : Resolver) (err : wrappedError) :
    List StackFrame × wrappedError :=
  ((wrappedError.StackFramesBody res err).1, err)

/-- wrappedError.Stack (src lines 188-196): concatenate the rendered
frames into one buffer. -/
def wrappedError.Stack (res : Resolver) (err : wrappedError) : String :=
  ((wrappedError.StackFrames res err).1).foldl
    (fun buf frame => buf ++ frame.render) ""

/-- wrappedError.TypeName (src lines 225-230). -/
def wrappedError.TypeName (err : wrappedError) : String :=
  match err.err with
  | .uncaughtPanic _ => "panic"
  | e => reflectTypeString e

/-- wrappedError.ErrorStack (src lines 206-208). -/
def wrappedError.ErrorStack (res : Resolver) (err : wrappedError) : String :=
  wrappedError.TypeName err ++ " " ++ wrappedError.Error err ++ "\n"
    ++ wrappedError.Stack res err

/-- The message an error-valued argument presents (`v`'s own `.Error()`). -/
def GoValue.messageOf : GoValue → String
  | .wrapperArg w => wrappedError.Error w
  | .errArg e => errMsg e
  | .nilArg => "<nil>"
  | .otherArg t => t

/-- Whether the argument is an error value (wrapper or plain error). -/
def GoValue.isErrorArg : GoValue → Bool
  | .wrapperArg _ => true
  | .errArg _ => true
  | _ => false

end V1

/-! ## V2 — the exported `Error` struct implementation
(src/unnamed/part_000 lines 231-469) -/

namespace V2

/-- Error (src lines 291-298). `ref` is not a Go field: it models the
pointer identity of the allocation. `StackStr` is the exported `Stack`
string field (renamed so it does not collide with the lower-case `stack`
raw-address field under Lean's name resolution); `frames = none` models
the nil slice. -/
structure Error where
  ref : Nat
  Err : ErrV
  StackStr : String
  Description : String
  Title : String
  stack : List Nat
  frames : Option (List StackFrame)
deriving DecidableEq, Repr

/-- The interface value a `*Error` presents to the rest of the program
(the V2 struct has no prefix field). -/
def Error.toErrV (w : Error) : ErrV :=
  .wrapper w.ref "" w.Err

/-- An `interface{}` argument to a V2 constructor. -/
inductive GoValue : Type
  | wrapperArg (w : Error) : GoValue
  | errArg (e : ErrV) : GoValue
  | nilArg : GoValue
  | otherArg (text : String) : GoValue
deriving DecidableEq, Repr

/-- Well-formedness of an argument as a Go interface value: a wrapper
travels as `wrapperArg`, the nil interface as `nilArg`, so `errArg`
carries a non-nil non-wrapper dynamic error. -/
def GoValue.WF : GoValue → Prop
  | .errArg e => e ≠ ErrV.nil ∧ e.isWrapper = false
  | _ => True

/-- stackFrames (src lines 441-447): resolve each raw address in order. -/
def stackFrames (res : Resolver) (stack : List Nat) : List StackFrame :=
  stack.map res

/-- stack (src lines 418-429): concatenate the rendered frames into one
buffer (Buffer.WriteString cannot fail, so the log.Panic branch is dead). -/
def stack (frames : List StackFrame) : String :=
  frames.foldl (fun buf frame => buf ++ frame.render) ""

/-- errorStack (src lines 437-439): `t + " " + err.Error() + "\n" + s`. -/
def errorStack (t : String) (err : ErrV) (s : String) : String :=
  t ++ " " ++ errMsg err ++ "\n" ++ s

/-- New (src lines 304-325): normalize the argument to an error cause (the
type switch has no `*Error` shortcut: a wrapper is just an error here),
capture into a MaxStackDepth-sized buffer, resolve the frames eagerly, and
fill Title / Stack / Description from the cause. -/
def New (md : Nat) (env : CallEnv) (res : Resolver) (e : GoValue)
    (freshId ref : Nat) : Error :=
  let err : ErrV :=
    match e with
    | .wrapperArg w => w.toErrV
    | .errArg er => er
    | .nilArg => .errorString freshId "<nil>"
    | .otherArg t => .errorString freshId t
  let s := (env 2).take md
  let f := stackFrames res s
  { ref := ref, Err := err, stack := s, frames := some f,
    Title := errMsg err,
    StackStr := errorStack (typeName err) err (stack f),
    Description := errMsg err }

/-- Custom (src lines 329-347): like New, but Title and Description come
from the caller, and the struct literal omits `frames` (nil slice), even
though the frames are resolved for the Stack string. -/
def Custom (md : Nat) (env : CallEnv) (res : Resolver) (e : GoValue)
    (desc title : String) (freshId ref : Nat) : Error :=
  let err : ErrV :=
    match e with
    | .wrapperArg w => w.toErrV
    | .errArg er => er
    | .nilArg => .errorString freshId "<nil>"
    | .otherArg t => .errorString freshId t
  let s := (env 2).take md
  let f := stackFrames res s
  { ref := ref, Err := err, stack := s, frames := none,
    Title := title,
    StackStr := errorStack (typeName err) err (stack f),
    Description := desc }

/-- The common tail of Wrap's non-shortcut branches (src lines 365-374):
capture starting `2 + skip` frames up, resolve eagerly, construct; the
omitted Title and Description fields are their zero value "". -/
def wrapNew (md : Nat) (env : CallEnv) (res : Resolver) (err : ErrV)
    (skip : Nat) (ref : Nat) : Error :=
  let s := (env (2 + skip)).take md
  let f := stackFrames res s
  { ref := ref, Err := err, stack := s, frames := some f,
    Title := "",
    StackStr := errorStack (typeName err) err (stack f),
    Description := "" }

/-- Wrap (src lines 353-375): an existing `*Error` is returned as is;
otherwise normalize the cause and build a fresh wrapper. -/
def Wrap (md : Nat) (env : CallEnv) (res : Resolver) (e : GoValue)
    (skip : Nat) (freshId ref : Nat) : Error :=
  match e with
  | .wrapperArg w => w
  | .errArg er => wrapNew md env res er skip ref
  | .nilArg => wrapNew md env res (.errorString freshId "<nil>") skip ref
  | .otherArg t => wrapNew md env res (.errorString freshId t) skip ref

/-- Errorf (src lines 400-402): Wrap(fmt.Errorf(format, args...), 1); the
formatted message text is `msgText`, its allocation `freshId`. -/
def Errorf (md : Nat) (env : CallEnv) (res : Resolver) (msgText : String)
    (freshId ref : Nat) : Error :=
  Wrap md env res (.errArg (.errorString freshId msgText)) 1 freshId ref

/-- (*Error).Error (src lines 405-407): the underlying cause's message. -/
def Error.ErrorMsg (err : Error) : String :=
  errMsg err.Err

/-- (*Error).StackFrames (src lines 451-457): a POINTER receiver; when the
cache field is nil it is filled from the raw addresses, and the caller's
instance keeps the write, so the pair is (result, updated receiver). -/
def Error.StackFrames (res : Resolver) (err : Error) :
    List StackFrame × Error :=
  match err.frames with
  | none =>
    let f := stackFrames res err.stack
    (f, { err with frames := some f })
  | some f => (f, err)

/-- (*Error).StackTrace (src lines 411-416): fill the frames cache if nil
(via StackFrames), then format. -/
def Error.StackTrace (res : Resolver) (err : Error) : String × Error :=
  let p := Error.StackFrames res err
  (V2.stack p.1, p.2)

/-- (*Error).TypeName (src lines 460-462). -/
def Error.TypeName (err : Error) : String :=
  typeName err.Err

/-- (*Error).ErrorStack (src lines 433-435):
errorStack(err.TypeName(), err, err.StackTrace()); the second argument is
the wrapper itself as an error value. -/
def Error.ErrorStack (res : Resolver) (err : Error) : String × Error :=
  let p := Error.StackTrace res err
  (errorStack (Error.TypeName err) (Error.toErrV err) p.1, p.2)

/-- The message an error-valued argument presents (`v`'s own `.Error()`). -/
def GoValue.messageOf : GoValue → String
  | .wrapperArg w => Error.ErrorMsg w
  | .errArg e => errMsg e
  | .nilArg => "<nil>"
  | .otherArg t => t

end V2

/-! ## Shared concrete instances for witnesses -/

/-- A concrete call environment: the current chain has two raw addresses. -/
def env0 : CallEnv := fun _ => [11, 12]

/-- A concrete frame resolver. -/
def res0 : Resolver := fun pc =>
  { file := "main.go", lineNumber := 7, name := "main", pack := "main",
    programCounter := pc }

/-- A second concrete frame resolver, disagreeing with `res0`. -/
def res1 : Resolver := fun pc =>
  { file := "other.go", lineNumber := 9, name := "other", pack := "main",
    programCounter := pc }

/-! ## Lemmas on Is113 -/

theorem wrapper_ne_of_not_wrapper (r : Nat) (p : String) (x e : ErrV)
    (h : e.isWrapper = false) : ErrV.wrapper r p x ≠ e := by
  cases e <;> simp_all [ErrV.isWrapper]

theorem Is113_final (e original : ErrV) (he : e.isWrapper = false)
    (ho : original.isWrapper = false) (hne : e ≠ original) :
    Is113 e original = callIsHook e original := by
  rw [Is113.eq_def, if_neg hne]
  cases e <;> cases original <;> simp_all [ErrV.isWrapper]

theorem Is113_wrapper_left (r : Nat) (p : String) (x original : ErrV)
    (hne : ErrV.wrapper r p x ≠ original) :
    Is113 (.wrapper r p x) original = Is113 x original := by
  rw [Is113.eq_def, if_neg hne]
  cases original <;> rfl

theorem Is113_wrapper_right (e : ErrV) (he : e.isWrapper = false)
    (r : Nat) (p : String) (y : ErrV) (hne : e ≠ ErrV.wrapper r p y) :
    Is113 e (.wrapper r p y) = Is113 e y := by
  rw [Is113.eq_def, if_neg hne]
  cases e <;> simp_all [ErrV.isWrapper]

/-! ## Claims -/

/-- C3: For every already-wrapped error `w` and every skip, `Wrap(w, skip)`
returns `w` itself, unchanged and with the same identity: the shortcut arm
of the type switch fires before any stack capture, so the result does not
depend on the call environment, the resolver, the depth limit, or `skip`
(any value ≥ 0, here all of `Nat`). Proved for both variants (src lines
353-375 and 103-121). -/
theorem claim_C3 (md : Nat) (env : CallEnv) (res : Resolver) (skip : Nat)
    (freshId ref : Nat) (w : V2.Error) (w1 : V1.wrappedError) :
    V2.Wrap md env res (.wrapperArg w) skip freshId ref = w ∧
    V1.Wrap md env (.wrapperArg w1) skip freshId ref = w1 :=
  ⟨rfl, rfl⟩

/-- Wrapping a value n times, outermost entry of the list first. -/
def wrapN (l : List (Nat × String)) (e : ErrV) : ErrV :=
  l.foldr (fun rp acc => ErrV.wrapper rp.1 rp.2 acc) e

theorem strip_wrapN (l : List (Nat × String)) (e : ErrV) :
    strip (wrapN l e) = strip e := by
  induction l with
  | nil => rfl
  | cons hd tl ih => simpa [wrapN, strip] using ih

/-- C4: `Is` is symmetric, and wrapping either or both operands any number
of times never changes its verdict. The embedded `Is` (src lines 380-395
and error_backward.go) never consults a custom hook, so this holds for all
operands, in particular for those without an asymmetric hook. -/
theorem claim_C4 (a b : ErrV) (l l2 : List (Nat × String)) :
    Is a b = Is b a ∧ Is (wrapN l a) (wrapN l2 b) = Is a b := by
  refine ⟨?_, ?_⟩
  · rw [Is_eq_strip, Is_eq_strip]
    exact decide_eq_decide.mpr eq_comm
  · rw [Is_eq_strip, Is_eq_strip, strip_wrapN, strip_wrapN]

/-- C10: `Is(nil, nil)` is true (the identity check fires on two nil
operands), and a wrapper whose unwrapped chain ends in a non-nil,
non-wrapper cause is `Is`-unequal to nil in both argument orders. -/
theorem claim_C10 :
    Is ErrV.nil ErrV.nil = true ∧
    ∀ w : ErrV, w.isWrapper = true → strip w ≠ ErrV.nil →
      Is w ErrV.nil = false ∧ Is ErrV.nil w = false := by
  refine ⟨by rw [Is_eq_strip]; simp, ?_⟩
  intro w hw hs
  refine ⟨?_, ?_⟩
  · rw [Is_eq_strip]
    simpa [strip] using decide_eq_false hs
  · rw [Is_eq_strip]
    simpa [strip] using decide_eq_false (fun h => hs h.symm)

theorem claim_C10_witness :
    Is (ErrV.wrapper 0 "" (.errorString 0 "x")) ErrV.nil = false ∧
    Is ErrV.nil (ErrV.wrapper 0 "" (.errorString 0 "x")) = false :=
  claim_C10.2 (ErrV.wrapper 0 "" (.errorString 0 "x")) (by decide) (by decide)

/-- C1: For non-wrapper operands `e` and `original` that are not the same
object, where `e` implements the custom equality hook, the go1.13 `Is`
(spec-modelled as `Is113`; its source file is absent from src/) returns the
hook's verdict instead of false — and the same verdict is returned when
either or both operands are wrapped before the call. -/
theorem claim_C1 (k : String) (ie original : ErrV) (r r2 : Nat)
    (p p2 : String) (hno : original.isWrapper = false)
    (hne : ErrV.customIs k ie ≠ original) :
    Is113 (.customIs k ie) original = callIsHook (.customIs k ie) original ∧
    Is113 (.wrapper r p (.customIs k ie)) original
      = callIsHook (.customIs k ie) original ∧
    Is113 (.customIs k ie) (.wrapper r2 p2 original)
      = callIsHook (.customIs k ie) original ∧
    Is113 (.wrapper r p (.customIs k ie)) (.wrapper r2 p2 original)
      = callIsHook (.customIs k ie) original := by
  have hbase : Is113 (.customIs k ie) original
      = callIsHook (.customIs k ie) original :=
    Is113_final _ _ rfl hno hne
  have hcw : ErrV.customIs k ie ≠ ErrV.wrapper r2 p2 original := by simp
  have hright : Is113 (.customIs k ie) (.wrapper r2 p2 original)
      = callIsHook (.customIs k ie) original := by
    rw [Is113_wrapper_right (.customIs k ie) rfl r2 p2 original hcw, hbase]
  refine ⟨hbase, ?_, hright, ?_⟩
  · rw [Is113_wrapper_left _ _ _ _ (wrapper_ne_of_not_wrapper _ _ _ _ hno),
      hbase]
  · have hww : ErrV.wrapper r p (.customIs k ie)
        ≠ ErrV.wrapper r2 p2 original := by
      simp only [ne_eq, ErrV.wrapper.injEq, not_and]
      intro _ _ h
      exact hne h
    rw [Is113_wrapper_left _ _ _ _ hww, hright]

/-- C1 witness: the configuration of TestIs113 (src lines 480-523).
`custErr` has key "TestForFun" and inner error io.EOF; `shouldMatch` has
the same key and a nil inner error: distinct objects, no wrappers, hook
verdict true; the verdict survives wrapping on either side. -/
theorem claim_C1_witness :
    Is113 (.customIs "TestForFun" (.errorString 0 "EOF"))
        (.customIs "TestForFun" ErrV.nil) = true ∧
    Is113 (.wrapper 1 "" (.customIs "TestForFun" (.errorString 0 "EOF")))
        (.customIs "TestForFun" ErrV.nil) = true ∧
    Is113 (.customIs "TestForFun" (.errorString 0 "EOF"))
        (.wrapper 2 "" (.customIs "TestForFun" ErrV.nil)) = true ∧
    Is113 (.wrapper 1 "" (.customIs "TestForFun" (.errorString 0 "EOF")))
        (.wrapper 2 "" (.customIs "TestForFun" ErrV.nil)) = true := by
  have h := claim_C1 "TestForFun" (.errorString 0 "EOF")
    (.customIs "TestForFun" ErrV.nil) 1 2 "" "" (by decide) (by decide)
  have hv : callIsHook (.customIs "TestForFun" (.errorString 0 "EOF"))
      (.customIs "TestForFun" ErrV.nil) = true := by decide
  exact ⟨hv ▸ h.1, hv ▸ h.2.1, hv ▸ h.2.2.1, hv ▸ h.2.2.2⟩

/-- C5: Wrapping twice with prefixes, outermost call first, accumulates
`"A: B: "` in front of the message of the original error `v`: each
WrapPrefix call prepends its prefix to the wrapper's existing prefix
(joined with ": " when one exists), and Error() emits accumulated prefix,
separator, cause message (src lines 129-141 and 176-184). -/
theorem claim_C5 (md : Nat) (env : CallEnv) (freshId ref freshId2 ref2 : Nat)
    (v : V1.GoValue) (h : v.isErrorArg = true) :
    V1.wrappedError.Error
      (V1.WrapPrefix md env
        (.wrapperArg (V1.WrapPrefix md env v "B" 0 freshId ref)) "A" 0
        freshId2 ref2)
      = "A: B: " ++ v.messageOf := by
  cases v with
  | wrapperArg w =>
    by_cases hp : w.prefixStr = ""
    · simp [V1.WrapPrefix, V1.Wrap, V1.wrappedError.Error,
        V1.GoValue.messageOf, hp, String.append_assoc] <;>
        (rw [← String.append_assoc]; congr 1)
    · simp [V1.WrapPrefix, V1.Wrap, V1.wrappedError.Error,
        V1.GoValue.messageOf, hp, String.append_assoc] <;>
        (rw [← String.append_assoc]; congr 1)
  | errArg e =>
    simp [V1.WrapPrefix, V1.Wrap, V1.wrappedError.Error,
      V1.GoValue.messageOf, String.append_assoc] <;>
      (rw [← String.append_assoc]; congr 1)
  | nilArg => simp [V1.GoValue.isErrorArg] at h
  | otherArg t => simp [V1.GoValue.isErrorArg] at h

/-- C5 witness at a concrete plain error with message "boom". -/
theorem claim_C5_witness :
    V1.wrappedError.Error
      (V1.WrapPrefix 50 env0
        (.wrapperArg (V1.WrapPrefix 50 env0
          (.errArg (.errorString 0 "boom")) "B" 0 1 2)) "A" 0 3 4)
      = "A: B: boom" :=
  (claim_C5 50 env0 1 2 3 4 (.errArg (.errorString 0 "boom"))
    (by decide)).trans (by decide)

/-- C6: No constructor fails: every input — an error, a wrapper, the nil
interface, or a non-error value — is normalized to a non-nil cause, and
New(v).Error() is v's own message when v is an error, else the `fmt "%v"`
text of v ("<nil>" for the nil interface). Proved for both variants
(src lines 304-325 and 81-97). -/
theorem claim_C6 (md : Nat) (env : CallEnv) (res : Resolver)
    (freshId ref freshId2 ref2 : Nat) (v2 : V2.GoValue) (v1 : V1.GoValue)
    (h2 : v2.WF) (h1 : v1.WF) :
    (V2.New md env res v2 freshId ref).Err ≠ ErrV.nil ∧
    V2.Error.ErrorMsg (V2.New md env res v2 freshId ref) = v2.messageOf ∧
    (V1.New md env v1 freshId2 ref2).err ≠ ErrV.nil ∧
    V1.wrappedError.Error (V1.New md env v1 freshId2 ref2) = v1.messageOf := by
  refine ⟨?_, ?_, ?_, ?_⟩
  · cases v2 with
    | errArg e => exact h2.1
    | wrapperArg w => simp [V2.New, V2.Error.toErrV]
    | nilArg => simp [V2.New]
    | otherArg t => simp [V2.New]
  · cases v2 with
    | errArg e => rfl
    | wrapperArg w =>
      simp [V2.New, V2.Error.toErrV, V2.Error.ErrorMsg, V2.GoValue.messageOf,
        errMsg]
    | nilArg => rfl
    | otherArg t => rfl
  · cases v1 with
    | errArg e => exact h1.1
    | wrapperArg w => simp [V1.New, V1.wrappedError.toErrV]
    | nilArg => simp [V1.New]
    | otherArg t => simp [V1.New]
  · cases v1 with
    | errArg e => rfl
    | wrapperArg w =>
      simp [V1.New, V1.wrappedError.toErrV, V1.wrappedError.Error,
        V1.GoValue.messageOf, errMsg]
    | nilArg => rfl
    | otherArg t => rfl

/-- C6 witness: a plain error input for V2 and a non-error input for V1. -/
theorem claim_C6_witness :
    (V2.New 50 env0 res0 (.errArg (.errorString 3 "boom")) 7 9).Err
        ≠ ErrV.nil ∧
    V2.Error.ErrorMsg (V2.New 50 env0 res0 (.errArg (.errorString 3 "boom"))
        7 9) = "boom" ∧
    (V1.New 50 env0 (.otherArg "42") 7 9).err ≠ ErrV.nil ∧
    V1.wrappedError.Error (V1.New 50 env0 (.otherArg "42") 7 9) = "42" :=
  claim_C6 50 env0 res0 7 9 7 9 (.errArg (.errorString 3 "boom"))
    (.otherArg "42") ⟨by decide, rfl⟩ trivial

/-- C2 (code evaluated at the failing input): `wrappedError.StackFrames`
is declared on a VALUE receiver (src line 212), so the cache write at line
214 mutates a discarded copy. At a concrete instance with one raw address
and an unset cache: after a first call the caller's instance still has no
cached frames, and a second call resolves the address afresh — its result
tracks whatever resolver is in effect (`res1` here) rather than the frames
the first call produced with `res0`, which differ. On the V1 variant the
claimed caching therefore never takes effect. -/
theorem claim_C2_bug :
    (V1.wrappedError.StackFrames res0
        ⟨0, .errorString 0 "x", [7], none, ""⟩).2.frames = none ∧
    (V1.wrappedError.StackFrames res1
        ((V1.wrappedError.StackFrames res0
          ⟨0, .errorString 0 "x", [7], none, ""⟩).2)).1 = [res1 7] ∧
    (V1.wrappedError.StackFrames res0
        ⟨0, .errorString 0 "x", [7], none, ""⟩).1 = [res0 7] ∧
    res0 7 ≠ res1 7 := by
  refine ⟨rfl, rfl, rfl, by decide⟩

/-- The buffer loop of the trace formatter only ever grows the buffer. -/
theorem stack_foldl_ge (fs : List StackFrame) (buf : String) :
    buf.length ≤ (fs.foldl (fun b f => b ++ f.render) buf).length := by
  induction fs generalizing buf with
  | nil => simp
  | cons hd tl ih =>
    calc buf.length ≤ (buf ++ hd.render).length := by
          simp [String.length_append]
      _ ≤ _ := ih (buf ++ hd.render)

theorem render_length_pos (f : StackFrame) : 0 < f.render.length := by
  have h1 : (0 : Nat) < ("\n" : String).length := by decide
  simp only [StackFrame.render, String.length_append]
  omega

/-- C7: ErrorStack() is exactly TypeName() + " " + Error() + "\n" + Stack()
(src lines 206-208; the V2 helper errorStack, src lines 437-439, has the
same shape), and the trace block is non-empty whenever at least one raw
address was captured. -/
theorem claim_C7 (res : Resolver) (err : V1.wrappedError)
    (hf : err.frames = none) :
    V1.wrappedError.ErrorStack res err
      = V1.wrappedError.TypeName err ++ " " ++ V1.wrappedError.Error err
        ++ "\n" ++ V1.wrappedError.Stack res err ∧
    (1 ≤ err.stack.length → V1.wrappedError.Stack res err ≠ "") ∧
    ∀ (t : String) (e : ErrV) (s : String),
      V2.errorStack t e s = t ++ " " ++ errMsg e ++ "\n" ++ s := by
  refine ⟨rfl, ?_, fun t e s => rfl⟩
  intro hlen
  have hne : err.stack ≠ [] := by
    intro h
    rw [h] at hlen
    simp at hlen
  obtain ⟨a, rest, hs⟩ := List.exists_cons_of_ne_nil hne
  have hmap : (V1.wrappedError.StackFrames res err).1 = err.stack.map res := by
    simp [V1.wrappedError.StackFrames, V1.wrappedError.StackFramesBody, hf]
  have key : 0 < (V1.wrappedError.Stack res err).length := by
    rw [V1.wrappedError.Stack, hmap, hs]
    simp only [List.map_cons, List.foldl_cons]
    have h2 := stack_foldl_ge (rest.map res) ("" ++ (res a).render)
    have h3 : 0 < ("" ++ (res a).render).length := by
      have := render_length_pos (res a)
      simp [String.length_append]
      omega
    omega
  intro he
  rw [he] at key
  simp at key

/-- C7 witness at a one-address wrapper with an unset frames cache. -/
theorem claim_C7_witness :
    V1.wrappedError.ErrorStack res0 ⟨0, .errorString 0 "x", [7], none, ""⟩
      = V1.wrappedError.TypeName ⟨0, .errorString 0 "x", [7], none, ""⟩
        ++ " " ++ V1.wrappedError.Error ⟨0, .errorString 0 "x", [7], none, ""⟩
        ++ "\n"
        ++ V1.wrappedError.Stack res0 ⟨0, .errorString 0 "x", [7], none, ""⟩
    ∧ V1.wrappedError.Stack res0 ⟨0, .errorString 0 "x", [7], none, ""⟩
        ≠ "" :=
  ⟨(claim_C7 res0 ⟨0, .errorString 0 "x", [7], none, ""⟩ rfl).1,
    (claim_C7 res0 ⟨0, .errorString 0 "x", [7], none, ""⟩ rfl).2.1
      (by decide)⟩

/-- C8: TypeName() is the literal "panic" when the cause is the captured
runtime-fault carrier, whatever it wraps — also when such a fault is
wrapped via New, in both variants — and otherwise it is the cause's
reflected fully qualified concrete type name (src lines 464-469, 460-462,
225-230). -/
theorem claim_C8 (m : String) (md : Nat) (env : CallEnv) (res : Resolver)
    (freshId ref : Nat) (cause : ErrV) (hnp : cause.isPanic = false)
    (w2 : V2.Error) (w1 : V1.wrappedError) (hw1 : w1.err.isPanic = false) :
    typeName (.uncaughtPanic m) = "panic" ∧
    V2.Error.TypeName (V2.New md env res (.errArg (.uncaughtPanic m))
      freshId ref) = "panic" ∧
    V1.wrappedError.TypeName (V1.New md env (.errArg (.uncaughtPanic m))
      freshId ref) = "panic" ∧
    typeName cause = reflectTypeString cause ∧
    V2.Error.TypeName w2 = typeName w2.Err ∧
    V1.wrappedError.TypeName w1 = reflectTypeString w1.err := by
  refine ⟨rfl, rfl, rfl, ?_, rfl, ?_⟩
  · cases cause <;> simp_all [ErrV.isPanic, typeName]
  · obtain ⟨r, e, s, f, p⟩ := w1
    cases e <;> simp_all [ErrV.isPanic, V1.wrappedError.TypeName]

/-- C8 witness: a fault cause and a plain synthesized cause. -/
theorem claim_C8_witness :
    typeName (.uncaughtPanic "boom") = "panic" ∧
    typeName (.errorString 0 "y") = "*errors.errorString" := by
  have h := claim_C8 "boom" 50 env0 res0 7 9 (.errorString 0 "y") (by decide)
    (V2.New 50 env0 res0 (.errArg (.errorString 0 "y")) 7 9)
    (V1.New 50 env0 (.errArg (.errorString 0 "y")) 7 9) (by decide)
  exact ⟨h.1, h.2.2.2.1.trans (by decide)⟩

namespace V2

/-- Whether an argument is already a `*Error`. -/
def GoValue.isWrapperArg : GoValue → Bool
  | .wrapperArg _ => true
  | _ => false

end V2

/-- The C9 invariant of one constructed wrapper, for a depth limit `md` and
the ambient resolver: the captured raw-address sequence fits the limit, the
resolved frame sequence (whether pre-filled or computed on demand by
StackFrames) is exactly the in-order image of the raw addresses under the
resolver — hence of the same length — and resolving leaves the raw
addresses untouched. -/
def stackInvariant (md : Nat) (res : Resolver) (r : V2.Error) : Prop :=
  r.stack.length ≤ md ∧
  (V2.Error.StackFrames res r).1 = r.stack.map res ∧
  (V2.Error.StackFrames res r).1.length = r.stack.length ∧
  (V2.Error.StackFrames res r).2.stack = r.stack

/-- C9: Every constructor (New, Custom, Wrap on a not-yet-wrapped value,
Errorf) captures at most `md` raw addresses — where `md` is the
MaxStackDepth value in effect at capture time, whose default is 50 — and
the resolved frame sequence has exactly the length of the raw sequence,
with the i-th frame the resolution of the i-th address. -/
theorem claim_C9 (md : Nat) (env : CallEnv) (res : Resolver) (skip : Nat)
    (freshId ref : Nat) (desc title msgText : String)
    (vAll v : V2.GoValue) (hv : v.isWrapperArg = false) :
    MaxStackDepth = 50 ∧
    stackInvariant md res (V2.New md env res vAll freshId ref) ∧
    stackInvariant md res (V2.Custom md env res vAll desc title freshId ref) ∧
    stackInvariant md res (V2.Wrap md env res v skip freshId ref) ∧
    stackInvariant md res (V2.Errorf md env res msgText freshId ref) := by
  refine ⟨rfl, ?_, ?_, ?_, ?_⟩
  · refine ⟨?_, rfl, by simp [V2.New, V2.Error.StackFrames, V2.stackFrames], rfl⟩
    simp [V2.New]
  · refine ⟨?_, rfl, by simp [V2.Custom, V2.Error.StackFrames, V2.stackFrames], rfl⟩
    simp [V2.Custom]
  · cases v with
    | wrapperArg w => simp [V2.GoValue.isWrapperArg] at hv
    | errArg e =>
      refine ⟨?_, rfl, by simp [V2.Wrap, V2.wrapNew, V2.Error.StackFrames,
        V2.stackFrames], rfl⟩
      simp [V2.Wrap, V2.wrapNew]
    | nilArg =>
      refine ⟨?_, rfl, by simp [V2.Wrap, V2.wrapNew, V2.Error.StackFrames,
        V2.stackFrames], rfl⟩
      simp [V2.Wrap, V2.wrapNew]
    | otherArg t =>
      refine ⟨?_, rfl, by simp [V2.Wrap, V2.wrapNew, V2.Error.StackFrames,
        V2.stackFrames], rfl⟩
      simp [V2.Wrap, V2.wrapNew]
  · refine ⟨?_, rfl, by simp [V2.Errorf, V2.Wrap, V2.wrapNew,
      V2.Error.StackFrames, V2.stackFrames], rfl⟩
    simp [V2.Errorf, V2.Wrap, V2.wrapNew]

/-- C9 witness: concrete constructors under the default depth. -/
theorem claim_C9_witness :
    stackInvariant 50 res0 (V2.New 50 env0 res0 V2.GoValue.nilArg 7 9) ∧
    stackInvariant 50 res0
      (V2.Wrap 50 env0 res0 (.errArg (.errorString 0 "z")) 0 7 9) :=
  ⟨(claim_C9 50 env0 res0 0 7 9 "d" "t" "m" V2.GoValue.nilArg
      (.errArg (.errorString 0 "z")) (by decide)).2.1,
    (claim_C9 50 env0 res0 0 7 9 "d" "t" "m" V2.GoValue.nilArg
      (.errArg (.errorString 0 "z")) (by decide)).2.2.2.1⟩
